import Mathlib

/-!
Verification development for the IPU student-data scraper (`forpuchai.py`).

The program drives a headless browser: `scrape_student_data(url, identifier)`
navigates to a listing page, locates the row containing `identifier`, clicks
it, waits for the detail panel, and then extracts scalar labeled fields and
two sub-tables from the rendered document.  We embed the routine shallowly:
the rendered page is a `Doc` / `PageWorld` value carrying exactly the
observations the Python code makes of it (label lookups, label counts,
resolved table rows, whether navigation / click / panel-wait succeed), and
the routine becomes a pure function of that value, mirroring the source
control flow branch for branch.
-/

/-- One row of the subject-wise marks table, as built at
`summary_data["subjects"].append({"subject": ..., "marks": ...})`. -/
structure SubjectEntry where
  subject : String
  marks : String
deriving DecidableEq, Repr

/-- One row of the semester summary table, as built at
`summary_data["semesters"].append({...})`. -/
structure SemesterEntry where
  semester : String
  marks : String
  percentage : String
  sgpa : String
deriving DecidableEq, Repr

/-- The rendered detail document, as observed by the extractor.

* `labelValue l` models
  `page.locator(f"text={l}").first.evaluate("el => el.nextSibling.textContent")`:
  `some s` is the raw (untrimmed) text of the node following the first
  element rendering `l`; `none` means that evaluation raises (label absent,
  or no following sibling) — the Python call throws in that case.
* `labelCount l` models `page.locator(f"text={l}").count()`, the presence
  probe used for the conditional fields.
* `subjectRows` models the resolved rows of
  `page.locator("table:has-text('Subject (Credits)') tbody tr")`: each row is
  its list of `td` cell texts (raw, untrimmed).  `none` models the locator
  evaluation itself raising (the phase-level exception caught by the
  surrounding `try`); a document with no such table resolves to `some []`
  (the locator matches zero rows).
* `semesterRows` likewise for `page.locator("table:has-text('Semester') tbody tr")`. -/
structure Doc where
  labelValue : String → Option String
  labelCount : String → Nat
  subjectRows : Option (List (List String))
  semesterRows : Option (List (List String))

/-- Python `str.strip()`: remove whitespace from both ends.  (Defined over
the character list so that it evaluates by `decide`.) -/
def strip (s : String) : String :=
  ⟨((s.data.dropWhile Char.isWhitespace).reverse.dropWhile Char.isWhitespace).reverse⟩

/-- `get_value(label_text)` from the source: read the text node following the
first element rendering the label and `.strip()` it.  `none` = the underlying
evaluation raised. -/
def get_value (d : Doc) (label : String) : Option String :=
  (d.labelValue label).map strip

/-- The (key, label) assignments the scalar phase attempts, in source order,
as determined by the three presence probes.  The probes are pure reads
(`page.locator(...).count()`); evaluating them up front is observationally
the same as the source's inline `if` statements. -/
def scalarSteps (d : Doc) : List (String × String) :=
  [("enrollment_number", "Enrollment Number:"),
   ("name", "Name:"),
   ("marks", "Marks:"),
   ("percentage", "Percentage:")]
  ++ (if d.labelCount "Credit Marks:" > 0 then
        [("credit_marks", "Credit Marks:"),
         ("credit_percentage", "Credit Percentage:")]
      else [])
  ++ (if d.labelCount "SGPA:" > 0 then [("sgpa", "SGPA:")] else [])
  ++ (if d.labelCount "CGPA:" > 0 then [("cgpa", "CGPA:")] else [])
  ++ [("equivalent_percentage", "Equivalent Percentage:"),
      ("credits_obtained", "Credits Obtained:"),
      ("rank", "Rank:")]

/-- Run a sequence of `summary_data[key] = get_value(label)` assignments
inside one `try`: the first failing `get_value` raises, aborting the rest of
the sequence; the keys assigned before it are kept.  Returns the assigned
pairs in order and whether an exception was raised (and caught by the
enclosing `except`). -/
def runSteps (d : Doc) : List (String × String) → List (String × String) × Bool
  | [] => ([], false)
  | (key, label) :: rest =>
    match get_value d label with
    | none => ([], true)
    | some v =>
      let (r, f) := runSteps d rest
      ((key, v) :: r, f)

/-- The whole scalar-field phase (the first `try` block of
`scrape_student_data`): the assignments it made, and whether it raised. -/
def scalarPhase (d : Doc) : List (String × String) × Bool :=
  runSteps d (scalarSteps d)

/-- One subject row: kept iff it has at least 2 cells, reading cell 0 as
subject and cell 1 as marks (`inner_text().strip()`). -/
def rowToSubject : List String → Option SubjectEntry
  | c0 :: c1 :: _ => some ⟨strip c0, strip c1⟩
  | _ => none

/-- One semester row: kept iff it has at least 3 cells, reading cells 0-2;
cell 3 is sgpa if present (`cells.count() > 3`), else the empty string. -/
def rowToSemester : List String → Option SemesterEntry
  | c0 :: c1 :: c2 :: rest =>
    some ⟨strip c0, strip c1, strip c2,
          match rest with
          | c3 :: _ => strip c3
          | [] => ""⟩
  | _ => none

/-- The subject-table phase (second `try` block): the `subjects` key is set
to the kept rows iff `subject_rows.count() > 0`; a phase-level exception
(`subjectRows = none`) is caught and the key is never set. -/
def subjectsPhase (d : Doc) : Option (List SubjectEntry) :=
  match d.subjectRows with
  | none => none
  | some rows =>
    if rows.length > 0 then some (rows.filterMap rowToSubject) else none

/-- The semester-table phase (third `try` block), analogous. -/
def semestersPhase (d : Doc) : Option (List SemesterEntry) :=
  match d.semesterRows with
  | none => none
  | some rows =>
    if rows.length > 0 then some (rows.filterMap rowToSemester) else none

/-- The `summary_data` dict returned by `scrape_student_data` on the success
path.  The scalar assignments use pairwise-distinct string keys, all
different from `"subjects"` and `"semesters"`, so the dict is losslessly
split into the scalar pairs (in insertion order) and the two optional
table keys (`none` = key absent from the dict). -/
structure StudentData where
  scalars : List (String × String)
  subjects : Option (List SubjectEntry)
  semesters : Option (List SemesterEntry)
deriving DecidableEq, Repr

/-- The full extractor: the three phases of `scrape_student_data` after the
detail panel is confirmed, each phase's exception caught by its own
`try`/`except`. -/
def extractAll (d : Doc) : StudentData :=
  { scalars := (scalarPhase d).1
    subjects := subjectsPhase d
    semesters := semestersPhase d }

example :
    rowToSemester ["1", "500", "80.0"] =
      some ⟨"1", "500", "80.0", ""⟩ := by decide

example : rowToSubject ["only-one-cell"] = none := by decide

/-- `containsChars needle hay`: does `needle` occur as a contiguous run
inside `hay`? -/
def containsChars (needle : List Char) : List Char → Bool
  | [] => needle.isEmpty
  | c :: rest => List.isPrefixOf needle (c :: rest) || containsChars needle rest

/-- Rendered-text match used by `page.locator(f"table tr:has-text('{identifier}')")`:
Playwright's `:has-text` does case-insensitive substring matching of the
(whitespace-trimmed) needle against the element's rendered text. -/
def hasText (row needle : String) : Bool :=
  containsChars ((strip needle).data.map Char.toLower) (row.data.map Char.toLower)

/-- The exceptions `scrape_student_data` can propagate to its caller.

The source raises ONE `ValueError` for both the no-matching-row case and the
failed-click case (`f"Student '{identifier}' not found or click failed.
Error: {str(e)}"`), so the embedding has one constructor covering both,
carrying the stringified underlying exception.  `navigationFailed` models an
exception escaping the navigation prologue (e.g. `page.goto`), which no
`try` in the function catches. -/
inductive ScrapeError where
  | navigationFailed (msg : String)
  | studentNotFoundOrClickFailed (identifier : String) (cause : String)
  | detailPanelNotLoaded
deriving DecidableEq, Repr

/-- A single-quote character, for rebuilding the exact message text. -/
def squote : String := String.mk [Char.ofNat 39]

/-- `str(exception)` as seen by the caller of `scrape_student_data`. -/
def errorMessage : ScrapeError → String
  | ScrapeError.navigationFailed msg => msg
  | ScrapeError.studentNotFoundOrClickFailed identifier cause =>
      "Student " ++ squote ++ identifier ++ squote ++
        " not found or click failed. Error: " ++ cause
  | ScrapeError.detailPanelNotLoaded =>
      "Student detail panel did not load properly"

/-- The browser-side world one invocation of `scrape_student_data` observes:
whether `page.goto` raises, the rendered text of every `table tr` on the
listing page, whether the forced click on the matched row can be dispatched,
whether the "Enrollment Number:" sentinel appears within its 5000 ms
timeout, and the detail document the extractor then reads.  The stringified
exception texts (`str(e)`) for the scroll-timeout and failed-click cases are
part of the world, since the code embeds them in its own error message. -/
structure PageWorld where
  gotoFails : Bool
  gotoErrMsg : String
  rows : List String
  noMatchErrMsg : String
  clickOk : Bool
  clickErrMsg : String
  panelReady : Bool
  doc : Doc

/-- Session events, for the resource-lifecycle claims. -/
inductive SessionEv where
  | openSession
  | closeSession
  | retNormal
  | raiseExc
deriving DecidableEq, Repr

/-- The body of `scrape_student_data` inside `with sync_playwright() as p:`,
branch for branch:

1. `browser = p.chromium.launch(...)` opens the session; `page.goto(url)`
   may raise (nothing catches it inside the body, and no explicit
   `browser.close()` runs on that path);
2. the `.close-button` dismissal is wrapped in `try/except: pass` and has no
   observable effect either way;
3. if no `table tr` row has-text the identifier, `row.scroll_into_view_if_needed()`
   raises a timeout; the `except` calls `browser.close()` and raises the
   combined `ValueError`;
4. if a row matched but `row.click(force=True)` cannot be dispatched, the
   same `except` calls `browser.close()` and raises the same `ValueError`
   with the click exception as cause;
5. if the sentinel wait times out, `browser.close()` then
   `ValueError("Student detail panel did not load properly")`;
6. otherwise the three extraction phases run (each swallowing its own
   exceptions), `browser.close()` is called and `summary_data` returned.

Returns the result together with whether `browser.close()` was executed
inside the body on that path. -/
def scrapeBody (identifier : String) (w : PageWorld) :
    Except ScrapeError StudentData × Bool :=
  if w.gotoFails then
    (Except.error (ScrapeError.navigationFailed w.gotoErrMsg), false)
  else if w.rows.all (fun r => !(hasText r identifier)) then
    (Except.error
      (ScrapeError.studentNotFoundOrClickFailed identifier w.noMatchErrMsg), true)
  else if !w.clickOk then
    (Except.error
      (ScrapeError.studentNotFoundOrClickFailed identifier w.clickErrMsg), true)
  else if !w.panelReady then
    (Except.error ScrapeError.detailPanelNotLoaded, true)
  else
    (Except.ok (extractAll w.doc), true)

/-- Exiting the `with sync_playwright()` block (normally or exceptionally)
stops the Playwright driver, which closes any browser it launched that is
still open; if the body already closed the browser, teardown closes
nothing further. -/
def teardownEvents (closedInBody : Bool) : List SessionEv :=
  if closedInBody then [] else [SessionEv.closeSession]

/-- One full invocation of `scrape_student_data`: the value it returns (or
the exception it raises, as `Except.error`), together with the session-event
trace — the launch, the close (in-body or at `with`-teardown), and finally
the normal return or the exception propagating to the caller. -/
def scrape_run (identifier : String) (w : PageWorld) :
    Except ScrapeError StudentData × List SessionEv :=
  let (res, closedInBody) := scrapeBody identifier w
  let bodyEvs := SessionEv.openSession ::
    (if closedInBody then [SessionEv.closeSession] else [])
  let fin := match res with
    | Except.ok _ => SessionEv.retNormal
    | Except.error _ => SessionEv.raiseExc
  (res, bodyEvs ++ teardownEvents closedInBody ++ [fin])

/-- `scrape_student_data(url, identifier)` as its caller sees it: the
navigation outcome and rendered page are the `PageWorld`. -/
def scrape_student_data (identifier : String) (w : PageWorld) :
    Except ScrapeError StudentData :=
  (scrape_run identifier w).1

/-- The JSON object `get_ipu_student_data_direct` serializes: `status` and
`url`/`identifier` always; `error` and `note` only on the failure branch;
`student_data` only on the success branch (`none` = key absent). -/
structure ToolResponse where
  status : String
  error : Option String
  url : String
  identifier : String
  student_data : Option StudentData
  note : Option String
deriving DecidableEq, Repr

/-- The `get_ipu_student_data_direct` tool: runs `scrape_student_data` and
catches every exception (`except Exception as scrape_error`), producing
either the success object or the error descriptor. -/
def get_ipu_student_data_direct (url identifier : String) (w : PageWorld) :
    ToolResponse :=
  match scrape_student_data identifier w with
  | Except.ok data =>
    { status := "success", error := none, url := url,
      identifier := identifier, student_data := some data, note := none }
  | Except.error e =>
    { status := "error",
      error := some ("Failed to scrape student data: " ++ errorMessage e),
      url := url, identifier := identifier, student_data := none,
      note := some ("URL is valid but scraping failed. " ++
        "You can visit the URL manually to see the results.") }

/-- `mcp.server.auth.provider.AccessToken`, the fields the source sets. -/
structure AccessToken where
  token : String
  client_id : String
  scopes : List String
  expires_at : Option Nat
deriving DecidableEq, Repr

/-- Module-level configuration constant `TOKEN`. -/
def TOKEN : String := "ddea28553198"

/-- Module-level configuration constant `MY_NUMBER`. -/
def MY_NUMBER : String := "917011072161"

/-- `SimpleBearerAuthProvider`: the only state its `load_access_token`
consults is the configured token (`self.token`). -/
structure SimpleBearerAuthProvider where
  token : String

/-- `SimpleBearerAuthProvider.load_access_token`, line for line. -/
def load_access_token (provider : SimpleBearerAuthProvider) (token : String) :
    Option AccessToken :=
  if token = provider.token then
    some { token := token, client_id := "unknown", scopes := [],
           expires_at := none }
  else
    none

/-- The provider the server is constructed with:
`SimpleBearerAuthProvider(TOKEN)`. -/
def mcpAuthProvider : SimpleBearerAuthProvider := { token := TOKEN }

/-- The process-wide module state visible to request handlers: the two
module-level constants.  `scrape_student_data` reads neither and assigns no
module-level name, so an invocation is a function of its arguments and the
rendered page alone. -/
structure ServerState where
  token : String
  my_number : String
deriving DecidableEq, Repr

/-- The state at server start. -/
def initialServerState : ServerState := { token := TOKEN, my_number := MY_NUMBER }

/-- One scrape request threaded through the module state: the handler reads
no module state and writes none, so the state passes through unchanged. -/
def scrapeStateful (st : ServerState) (identifier : String) (w : PageWorld) :
    Except ScrapeError StudentData × ServerState :=
  (scrape_student_data identifier w, st)

/-- Two sequential requests for the same (url, identifier) against an
unchanged rendered page, the second starting from whatever module state the
first left behind. -/
def runTwoRequests (st : ServerState) (identifier : String) (w : PageWorld) :
    Except ScrapeError StudentData × Except ScrapeError StudentData :=
  let (r1, st1) := scrapeStateful st identifier w
  let (r2, _) := scrapeStateful st1 identifier w
  (r1, r2)

/-- The pair a single successful assignment contributes. -/
def stepOut (d : Doc) (s : String × String) : Option (String × String) :=
  (get_value d s.2).map (fun v => (s.1, v))

theorem lookup_eq_none_of_keys (k : String) (l : List (String × String))
    (h : ∀ p ∈ l, p.1 ≠ k) : List.lookup k l = none := by
  induction l with
  | nil => rfl
  | cons a t ih =>
    obtain ⟨a1, a2⟩ := a
    have hk : (k == a1) = false :=
      beq_eq_false_iff_ne.mpr fun hc =>
        h (a1, a2) (List.mem_cons_self _ _) hc.symm
    simp only [List.lookup, hk]
    exact ih fun p hp => h p (List.mem_cons_of_mem _ hp)

theorem lookup_isSome_of_mem (k : String) (v : String)
    (l : List (String × String)) (h : (k, v) ∈ l) :
    (List.lookup k l).isSome = true := by
  induction l with
  | nil => simp at h
  | cons a t ih =>
    rcases List.mem_cons.mp h with h1 | h2
    · simp [List.lookup, ← h1]
    · by_cases hk : k == a.1
      · simp [List.lookup, hk]
      · simp only [List.lookup, hk]
        exact ih h2

theorem runSteps_mem (d : Doc) (steps : List (String × String))
    (p : String × String) (hp : p ∈ (runSteps d steps).1) :
    ∃ l, (p.1, l) ∈ steps ∧ get_value d l = some p.2 := by
  induction steps with
  | nil => simp [runSteps] at hp
  | cons s rest ih =>
    obtain ⟨key, label⟩ := s
    simp only [runSteps] at hp
    cases hv : get_value d label with
    | none => simp [hv] at hp
    | some v =>
      simp only [hv] at hp
      rcases List.mem_cons.mp hp with h1 | h2
      · exact ⟨label, by simp [h1], by rw [hv, h1]⟩
      · obtain ⟨l, hl, hgv⟩ := ih h2
        exact ⟨l, List.mem_cons_of_mem _ hl, hgv⟩

theorem runSteps_all_some (d : Doc) (steps : List (String × String))
    (h : ∀ s ∈ steps, (get_value d s.2).isSome = true) :
    runSteps d steps = (steps.filterMap (stepOut d), false) := by
  induction steps with
  | nil => rfl
  | cons s rest ih =>
    obtain ⟨key, label⟩ := s
    have hs := h (key, label) (List.mem_cons_self _ _)
    cases hv : get_value d label with
    | none => rw [hv] at hs; simp at hs
    | some v =>
      have ih2 := ih fun s hs2 => h s (List.mem_cons_of_mem _ hs2)
      simp [runSteps, hv, ih2, List.filterMap, stepOut]

theorem runSteps_fail_split (d : Doc) (steps : List (String × String))
    (h : (runSteps d steps).2 = true) :
    ∃ pre s0 post, steps = pre ++ s0 :: post ∧
      get_value d s0.2 = none ∧
      (∀ s ∈ pre, (get_value d s.2).isSome = true) ∧
      (runSteps d steps).1 = pre.filterMap (stepOut d) := by
  induction steps with
  | nil => simp [runSteps] at h
  | cons s rest ih =>
    obtain ⟨key, label⟩ := s
    cases hv : get_value d label with
    | none =>
      refine ⟨[], (key, label), rest, by simp, hv, by simp, ?_⟩
      simp [runSteps, hv]
    | some v =>
      have hrest : (runSteps d rest).2 = true := by
        simp only [runSteps, hv] at h
        exact h
      obtain ⟨pre, s0, post, hsplit, hfail, hpre, hout⟩ := ih hrest
      refine ⟨(key, label) :: pre, s0, post, by simp [hsplit], hfail, ?_, ?_⟩
      · intro s hs
        rcases List.mem_cons.mp hs with h1 | h2
        · rw [h1]; simp [hv]
        · exact hpre s h2
      · simp [runSteps, hv, hout, List.filterMap, stepOut]

theorem runSteps_flag_false (d : Doc) (steps : List (String × String))
    (h : (runSteps d steps).2 = false) :
    ∀ s ∈ steps, (get_value d s.2).isSome = true := by
  induction steps with
  | nil => simp
  | cons s rest ih =>
    obtain ⟨key, label⟩ := s
    cases hv : get_value d label with
    | none => simp [runSteps, hv] at h
    | some v =>
      have hrest : (runSteps d rest).2 = false := by
        simp only [runSteps, hv] at h
        exact h
      intro s hs
      rcases List.mem_cons.mp hs with h1 | h2
      · rw [h1]; simp [hv]
      · exact ih hrest s h2

theorem get_value_congr (d d2 : Doc) (h : d2.labelValue = d.labelValue) :
    get_value d2 = get_value d := by
  funext l
  rw [get_value, get_value, h]

theorem runSteps_congr (d d2 : Doc) (h : get_value d2 = get_value d)
    (steps : List (String × String)) :
    runSteps d2 steps = runSteps d steps := by
  induction steps with
  | nil => rfl
  | cons s rest ih =>
    obtain ⟨key, label⟩ := s
    simp only [runSteps, h, ih]

theorem scalarSteps_congr (d d2 : Doc) (h : d2.labelCount = d.labelCount) :
    scalarSteps d2 = scalarSteps d := by
  simp only [scalarSteps, h]

deriving instance DecidableEq for Except

/-- A detail document with no readable labels and no sub-tables. -/
def docEmpty : Doc :=
  { labelValue := fun _ => none
    labelCount := fun _ => 0
    subjectRows := some []
    semesterRows := some [] }

/-- A listing page whose only row belongs to a different student, with an
otherwise healthy browser session. -/
def wNoMatch : PageWorld :=
  { gotoFails := false
    gotoErrMsg := ""
    rows := ["1 11196011111 SOMEONE ELSE 500"]
    noMatchErrMsg := "Timeout 30000ms exceeded."
    clickOk := true
    clickErrMsg := ""
    panelReady := true
    doc := docEmpty }

/-- A listing page where the student's row is present but the forced click
cannot be dispatched; the click exception stringifies to the same text as
the scroll timeout in `wNoMatch`. -/
def wClickFail : PageWorld :=
  { gotoFails := false
    gotoErrMsg := ""
    rows := ["2 07114802822 STUDENT NAME 700"]
    noMatchErrMsg := ""
    clickOk := false
    clickErrMsg := "Timeout 30000ms exceeded."
    panelReady := true
    doc := docEmpty }

/-- C10: `load_access_token` on the provider configured with the module
constant `TOKEN` returns a non-null `AccessToken` — with empty scopes and no
expiry — exactly when the presented bearer token is string-equal to `TOKEN`,
and `None` for every other token, so exactly one token value grants
access. -/
theorem c10_bearer_token (t : String) :
    ((load_access_token mcpAuthProvider t).isSome = true ↔ t = TOKEN) ∧
    (t = TOKEN → load_access_token mcpAuthProvider t =
      some { token := t, client_id := "unknown", scopes := [],
             expires_at := none }) ∧
    (t ≠ TOKEN → load_access_token mcpAuthProvider t = none) := by
  refine ⟨?_, ?_, ?_⟩ <;> by_cases h : t = TOKEN <;>
    simp [load_access_token, mcpAuthProvider, h]

/-- Witness for C10 at the configured token and at a rejected token. -/
theorem c10_bearer_token_witness :
    load_access_token mcpAuthProvider TOKEN =
      some { token := TOKEN, client_id := "unknown", scopes := [],
             expires_at := none } ∧
    load_access_token mcpAuthProvider "wrong-token" = none :=
  ⟨(c10_bearer_token TOKEN).2.1 rfl,
   (c10_bearer_token "wrong-token").2.2 (by decide)⟩

/-- C9: two sequential invocations for the same identifier against an
unchanged rendered page — the second starting from whatever module state the
first left — produce identical results, each equal to the pure extraction
from the page; the routine is deterministic in the page content, reads no
module state and leaves it unchanged. -/
theorem c9_idempotent (st : ServerState) (identifier : String)
    (w : PageWorld) :
    (runTwoRequests st identifier w).1 = (runTwoRequests st identifier w).2 ∧
    (runTwoRequests st identifier w).1 = scrape_student_data identifier w ∧
    (scrapeStateful st identifier w).2 = st :=
  ⟨rfl, rfl, rfl⟩

/-- C3: every invocation of `scrape_student_data` — returning normally,
raising the combined not-found/click error, raising the detail-panel error,
or propagating a navigation exception — opens exactly one browser session
and closes it before the return value or the exception reaches the caller;
the session-event trace is always open, close, then the final transfer of
control, so no session survives the call. -/
theorem c3_session_lifecycle (identifier : String) (w : PageWorld) :
    ((scrape_run identifier w).2 =
        [SessionEv.openSession, SessionEv.closeSession, SessionEv.retNormal] ∧
      ∃ data, (scrape_run identifier w).1 = Except.ok data) ∨
    ((scrape_run identifier w).2 =
        [SessionEv.openSession, SessionEv.closeSession, SessionEv.raiseExc] ∧
      ∃ e, (scrape_run identifier w).1 = Except.error e) := by
  unfold scrape_run scrapeBody teardownEvents
  by_cases h1 : w.gotoFails
  · right; simp [h1]
  · by_cases h2 : w.rows.all (fun r => !(hasText r identifier))
    · right; simp [h1, h2]
    · by_cases h3 : w.clickOk
      · by_cases h4 : w.panelReady
        · left; simp [h1, h2, h3, h4]
        · right; simp [h1, h2, h3, h4]
      · right; simp [h1, h2, h3]

/-- C8: whenever the scrape raises, the tool response the caller receives is
the error descriptor — status `"error"`, a human-readable message, the
original URL and identifier, the note recommending a manual visit — and it
carries no `student_data` field; the exception itself is caught, never
re-raised. -/
theorem c8_error_descriptor (url identifier : String) (w : PageWorld)
    (e : ScrapeError)
    (hfail : scrape_student_data identifier w = Except.error e) :
    get_ipu_student_data_direct url identifier w =
      { status := "error"
        error := some ("Failed to scrape student data: " ++ errorMessage e)
        url := url
        identifier := identifier
        student_data := none
        note := some ("URL is valid but scraping failed. " ++
          "You can visit the URL manually to see the results.") } := by
  unfold get_ipu_student_data_direct
  rw [hfail]

/-- Witness for C8: a request whose identifier matches no row yields the
full error descriptor with no `student_data`. -/
theorem c8_error_descriptor_witness :
    get_ipu_student_data_direct
        "https://www.ipuranklist.com/ranklist/btech?batch=22&branch=ECE&insti=148&sem=0"
        "07114802822" wNoMatch =
      { status := "error"
        error := some ("Failed to scrape student data: " ++
          errorMessage (ScrapeError.studentNotFoundOrClickFailed
            "07114802822" "Timeout 30000ms exceeded."))
        url := "https://www.ipuranklist.com/ranklist/btech?batch=22&branch=ECE&insti=148&sem=0"
        identifier := "07114802822"
        student_data := none
        note := some ("URL is valid but scraping failed. " ++
          "You can visit the URL manually to see the results.") } :=
  c8_error_descriptor _ "07114802822" wNoMatch
    (ScrapeError.studentNotFoundOrClickFailed "07114802822"
      "Timeout 30000ms exceeded.") (by decide)

/-- C2 counterexample: the claim says a zero-match failure surfaces as a
distinct `IdentifierNotFound` and a click-dispatch failure as a distinct
`RowInteractionFailed`.  The code raises one and the same
`ValueError(f"Student '{identifier}' not found or click failed. Error: ...")`
for both: here a world with zero matching rows and a world with a matching
row whose click cannot be dispatched produce literally identical errors, so
the two failure kinds are not distinguishable in what the caller
receives. -/
theorem c2_error_kinds_counterexample :
    (wNoMatch.rows.all (fun r => !(hasText r "07114802822"))) = true ∧
    (wClickFail.rows.any (fun r => hasText r "07114802822")) = true ∧
    wClickFail.clickOk = false ∧
    scrape_student_data "07114802822" wNoMatch =
      scrape_student_data "07114802822" wClickFail := by decide

/-- C2 (amended): if no rendered row contains the identifier, or a matching
row is found but the click cannot be dispatched, the call fails — but with
one and the same error kind, the combined `ValueError` whose message embeds
the identifier and the stringified underlying cause; the two failure modes
are distinguishable only through that opaque cause text, not as distinct
error kinds. -/
theorem c2_single_error_kind (identifier : String) (w : PageWorld)
    (hgoto : w.gotoFails = false) :
    ((w.rows.all (fun r => !(hasText r identifier))) = true →
      scrape_student_data identifier w =
        Except.error (ScrapeError.studentNotFoundOrClickFailed identifier
          w.noMatchErrMsg) ∧
      errorMessage (ScrapeError.studentNotFoundOrClickFailed identifier
          w.noMatchErrMsg) =
        "Student " ++ squote ++ identifier ++ squote ++
          " not found or click failed. Error: " ++ w.noMatchErrMsg) ∧
    ((w.rows.any (fun r => hasText r identifier)) = true → w.clickOk = false →
      scrape_student_data identifier w =
        Except.error (ScrapeError.studentNotFoundOrClickFailed identifier
          w.clickErrMsg) ∧
      errorMessage (ScrapeError.studentNotFoundOrClickFailed identifier
          w.clickErrMsg) =
        "Student " ++ squote ++ identifier ++ squote ++
          " not found or click failed. Error: " ++ w.clickErrMsg) := by
  constructor
  · intro hnone
    refine ⟨?_, rfl⟩
    unfold scrape_student_data scrape_run scrapeBody
    simp [hgoto, hnone]
  · intro hsome hclick
    refine ⟨?_, rfl⟩
    have hnotall : (w.rows.all (fun r => !(hasText r identifier))) = false := by
      rcases List.any_eq_true.mp hsome with ⟨r, hr, hrt⟩
      apply Bool.not_eq_true _ |>.mp
      intro hall
      have := List.all_eq_true.mp hall r hr
      rw [hrt] at this
      simp at this
    unfold scrape_student_data scrape_run scrapeBody
    simp [hgoto, hnotall, hclick]

/-- Witness for C2: the amended theorem applied to the zero-match world and
to the failed-click world. -/
theorem c2_single_error_kind_witness :
    scrape_student_data "07114802822" wNoMatch =
      Except.error (ScrapeError.studentNotFoundOrClickFailed "07114802822"
        "Timeout 30000ms exceeded.") ∧
    scrape_student_data "07114802822" wClickFail =
      Except.error (ScrapeError.studentNotFoundOrClickFailed "07114802822"
        "Timeout 30000ms exceeded.") :=
  ⟨((c2_single_error_kind "07114802822" wNoMatch rfl).1 (by decide)).1,
   ((c2_single_error_kind "07114802822" wClickFail rfl).2 (by decide)
     rfl).1⟩

/-- A fully healthy detail document: every label readable, all conditional
sections present, both sub-tables populated. -/
def dGood : Doc :=
  { labelValue := fun _ => some " 42 "
    labelCount := fun _ => 1
    subjectRows := some [["Applied Maths (4)", " 85 "], ["Physics (4)", "78"]]
    semesterRows := some [["1", "500", "80.0", "8.5"], ["2", "480", "77.0", "8.1"]] }

/-- `dGood` with the subject-table phase raising (fault injected into
phase 2 only). -/
def dGoodSubFault : Doc := { dGood with subjectRows := none }

/-- `dGood` with the semester-table phase raising (fault injected into
phase 3 only). -/
def dGoodSemFault : Doc := { dGood with semesterRows := none }

/-- C5: the three extraction phases are pairwise fault-isolated.  Each
phase's exception is caught by its own `try`/`except` — `extractAll` is
total — and each phase's contribution to the returned record is a function
of that phase's own inputs alone: however the other phases' inputs are
changed (in particular, however a fault is injected into them), the phase
still executes and contributes the same result. -/
theorem c5_phase_isolation (d d2 : Doc) :
    (d2.labelValue = d.labelValue → d2.labelCount = d.labelCount →
      (extractAll d2).scalars = (extractAll d).scalars) ∧
    (d2.subjectRows = d.subjectRows →
      (extractAll d2).subjects = (extractAll d).subjects) ∧
    (d2.semesterRows = d.semesterRows →
      (extractAll d2).semesters = (extractAll d).semesters) := by
  refine ⟨fun hlv hlc => ?_, fun hs => ?_, fun hs => ?_⟩
  · show (scalarPhase d2).1 = (scalarPhase d).1
    unfold scalarPhase
    rw [scalarSteps_congr d d2 hlc, runSteps_congr d d2 (get_value_congr d d2 hlv)]
  · show subjectsPhase d2 = subjectsPhase d
    unfold subjectsPhase
    rw [hs]
  · show semestersPhase d2 = semestersPhase d
    unfold semestersPhase
    rw [hs]

/-- Witness for C5: concrete fault injections into the subject-table and
semester-table phases leave the other phases' contributions unchanged. -/
theorem c5_phase_isolation_witness :
    (extractAll dGoodSubFault).scalars = (extractAll dGood).scalars ∧
    (extractAll dGoodSemFault).subjects = (extractAll dGood).subjects ∧
    (extractAll dGoodSubFault).semesters = (extractAll dGood).semesters :=
  ⟨(c5_phase_isolation dGood dGoodSubFault).1 rfl rfl,
   (c5_phase_isolation dGood dGoodSemFault).2.1 rfl,
   (c5_phase_isolation dGood dGoodSubFault).2.2 rfl⟩

/-- C6: in a semester table whose rows each have exactly 3 cells, every row
is turned into an entry whose semester/marks/percentage are the stripped
cells 0-2 and whose sgpa is the empty string; every produced entry has an
empty sgpa; and any row with fewer than 3 cells is skipped (mapped to
nothing) rather than raising. -/
theorem c6_semester_three_cols (d : Doc) (rows : List (List String))
    (hrows : d.semesterRows = some rows)
    (h3 : ∀ r ∈ rows, r.length = 3) :
    (∀ r ∈ rows, ∃ c0 c1 c2, r = [c0, c1, c2] ∧
      rowToSemester r = some ⟨strip c0, strip c1, strip c2, ""⟩) ∧
    (∀ l, semestersPhase d = some l → ∀ e ∈ l, e.sgpa = "") ∧
    (∀ r : List String, r.length < 3 → rowToSemester r = none) := by
  refine ⟨?_, ?_, ?_⟩
  · intro r hr
    match r, h3 r hr with
    | [c0, c1, c2], _ => exact ⟨c0, c1, c2, rfl, rfl⟩
  · intro l hl e he
    simp only [semestersPhase, hrows] at hl
    by_cases hlen : rows.length > 0
    · rw [if_pos hlen] at hl
      cases hl
      obtain ⟨r, hr, hre⟩ := List.mem_filterMap.mp he
      obtain ⟨c0, c1, c2, hr3, hmk⟩ := by
        have := h3 r hr
        exact (match r, this with
          | [c0, c1, c2], _ => ⟨c0, c1, c2, rfl, rfl⟩ :
          ∃ c0 c1 c2, r = [c0, c1, c2] ∧
            rowToSemester r = some ⟨strip c0, strip c1, strip c2, ""⟩)
      rw [hmk] at hre
      cases hre
      rfl
    · rw [if_neg hlen] at hl
      cases hl
  · intro r hlen
    rcases r with _ | ⟨a, _ | ⟨b, _ | ⟨c, t⟩⟩⟩
    · rfl
    · rfl
    · rfl
    · simp only [List.length_cons] at hlen
      omega

/-- A document whose semester table has exactly 3 columns and whose last
row is malformed (2 cells). -/
def dSem3 : Doc :=
  { labelValue := fun _ => some "v"
    labelCount := fun _ => 0
    subjectRows := some []
    semesterRows := some [["1", " 500 ", "80.0"], ["2", "480", "77.0"]] }

/-- Witness for C6 on a concrete 3-column semester table. -/
theorem c6_semester_three_cols_witness :
    (∀ r ∈ [["1", " 500 ", "80.0"], ["2", "480", "77.0"]],
      ∃ c0 c1 c2, r = [c0, c1, c2] ∧
        rowToSemester r = some ⟨strip c0, strip c1, strip c2, ""⟩) ∧
    (∀ l, semestersPhase dSem3 = some l → ∀ e ∈ l, e.sgpa = "") ∧
    (∀ r : List String, r.length < 3 → rowToSemester r = none) :=
  c6_semester_three_cols dSem3 [["1", " 500 ", "80.0"], ["2", "480", "77.0"]]
    rfl (by decide)

/-- A detail document with every label readable but a subject-table locator
that matches zero rows (no subject table rendered). -/
def dNoSubjects : Doc :=
  { labelValue := fun _ => some "v"
    labelCount := fun _ => 0
    subjectRows := some []
    semesterRows := some [] }

/-- A detail document whose subject table has one well-formed row, one
malformed single-cell row, then another well-formed row. -/
def dMixedSubjects : Doc :=
  { labelValue := fun _ => some "v"
    labelCount := fun _ => 0
    subjectRows := some
      [["Applied Maths (4)", " 85 "], ["malformed"], ["Physics (4)", "78"]]
    semesterRows := some [] }

/-- C7 counterexample: the claim says that with no subject table (zero body
rows) the result's `subjects` field is the empty sequence.  In the code the
`summary_data["subjects"]` key is only created when `subject_rows.count() > 0`,
so on this document the key is absent altogether — not present with an
empty value. -/
theorem c7_subjects_counterexample :
    dNoSubjects.subjectRows = some [] ∧
    (extractAll dNoSubjects).subjects ≠ some [] ∧
    (extractAll dNoSubjects).subjects = none := by decide

/-- C7 (amended): when the subject-table locator matches zero body rows (no
table, or an empty one), the `subjects` key is omitted from the result
entirely rather than set to an empty sequence; when rows exist, the kept
entries are exactly the rows with at least 2 cells, in row order, and every
single-cell row is excluded. -/
theorem c7_subjects_amended (d : Doc) :
    (d.subjectRows = some [] → (extractAll d).subjects = none) ∧
    (∀ rows, d.subjectRows = some rows → rows ≠ [] →
      (extractAll d).subjects = some (rows.filterMap rowToSubject)) ∧
    (∀ c : String, rowToSubject [c] = none) ∧
    (∀ r : List String, 2 ≤ r.length → ∃ e, rowToSubject r = some e) := by
  refine ⟨?_, ?_, fun c => rfl, ?_⟩
  · intro hrows
    show subjectsPhase d = none
    simp [subjectsPhase, hrows]
  · intro rows hrows hne
    show subjectsPhase d = some (rows.filterMap rowToSubject)
    have hpos : rows.length > 0 := List.length_pos.mpr hne
    simp [subjectsPhase, hrows, hpos]
  · intro r hlen
    rcases r with _ | ⟨a, _ | ⟨b, t⟩⟩
    · simp at hlen
    · simp at hlen
    · exact ⟨⟨strip a, strip b⟩, rfl⟩

/-- Witness for C7: the empty-table document omits the key; the mixed table
keeps exactly its two well-formed rows in order. -/
theorem c7_subjects_amended_witness :
    (extractAll dNoSubjects).subjects = none ∧
    (extractAll dMixedSubjects).subjects =
      some [⟨"Applied Maths (4)", "85"⟩, ⟨"Physics (4)", "78"⟩] ∧
    rowToSubject ["malformed"] = none := by
  refine ⟨(c7_subjects_amended dNoSubjects).1 rfl, ?_, (c7_subjects_amended dMixedSubjects).2.2.1 "malformed"⟩
  rw [(c7_subjects_amended dMixedSubjects).2.1
    [["Applied Maths (4)", " 85 "], ["malformed"], ["Physics (4)", "78"]]
    rfl (by decide)]
  decide

theorem scalarSteps_keys (d : Doc) :
    (scalarSteps d).map Prod.fst =
      ["enrollment_number", "name", "marks", "percentage"]
      ++ (if d.labelCount "Credit Marks:" > 0 then
            ["credit_marks", "credit_percentage"] else [])
      ++ (if d.labelCount "SGPA:" > 0 then ["sgpa"] else [])
      ++ (if d.labelCount "CGPA:" > 0 then ["cgpa"] else [])
      ++ ["equivalent_percentage", "credits_obtained", "rank"] := by
  simp only [scalarSteps, List.map_append, apply_ite (List.map Prod.fst)]
  rfl

theorem scalarSteps_no_credit (d : Doc)
    (hcount : d.labelCount "Credit Marks:" = 0) :
    "credit_marks" ∉ (scalarSteps d).map Prod.fst ∧
    "credit_percentage" ∉ (scalarSteps d).map Prod.fst := by
  rw [scalarSteps_keys d, hcount]
  by_cases h1 : d.labelCount "SGPA:" > 0 <;>
    by_cases h2 : d.labelCount "CGPA:" > 0 <;>
      simp [h1, h2]

/-- A detail document on which the very first scalar extraction
(`Enrollment Number:`) raises while every later label, `Name:` included, is
perfectly readable. -/
def dC1 : Doc :=
  { labelValue := fun l => if l = "Enrollment Number:" then none else some "Alice"
    labelCount := fun _ => 0
    subjectRows := some []
    semesterRows := some [] }

/-- C1 counterexample: on `dC1` the `Name:` label is readable, yet because
the earlier `Enrollment Number:` extraction raised — and the single `try`
wraps the whole scalar phase — the returned record contains no `name` key.
The claim that every other readable scalar field still gets extracted is
false of the code. -/
theorem c1_scalar_phase_counterexample :
    get_value dC1 "Name:" = some "Alice" ∧
    get_value dC1 "Enrollment Number:" = none ∧
    List.lookup "name" (extractAll dC1).scalars = none := by decide

/-- C1 (amended): a mandatory scalar extraction failure is caught — at the
level of the whole scalar phase, not per field: the routine still returns a
record and both sub-table phases still contribute, the scalar fields
extracted before the failing one are retained in order, but every scalar
field after the first failing one is skipped rather than attempted. -/
theorem c1_scalar_phase_amended (d : Doc)
    (hfail : (scalarPhase d).2 = true) :
    (extractAll d).subjects = subjectsPhase d ∧
    (extractAll d).semesters = semestersPhase d ∧
    ∃ pre s0 post,
      scalarSteps d = pre ++ s0 :: post ∧
      get_value d s0.2 = none ∧
      (∀ s ∈ pre, (get_value d s.2).isSome = true) ∧
      (extractAll d).scalars = pre.filterMap (stepOut d) := by
  refine ⟨rfl, rfl, ?_⟩
  exact runSteps_fail_split d (scalarSteps d) hfail

/-- Witness for C1 (amended) at the concrete document `dC1`. -/
theorem c1_scalar_phase_amended_witness :
    (scalarPhase dC1).2 = true ∧
    ((extractAll dC1).subjects = subjectsPhase dC1 ∧
     (extractAll dC1).semesters = semestersPhase dC1 ∧
     ∃ pre s0 post,
       scalarSteps dC1 = pre ++ s0 :: post ∧
       get_value dC1 s0.2 = none ∧
       (∀ s ∈ pre, (get_value dC1 s.2).isSome = true) ∧
       (extractAll dC1).scalars = pre.filterMap (stepOut dC1)) :=
  ⟨by decide, c1_scalar_phase_amended dC1 (by decide)⟩

/-- A detail document with no "Credit Marks:" label anywhere and a failing
`Marks:` extraction, every other label readable. -/
def dC4 : Doc :=
  { labelValue := fun l => if l = "Marks:" then none else some " 42 "
    labelCount := fun _ => 0
    subjectRows := some []
    semesterRows := some [] }

/-- A detail document with no "Credit Marks:" label (and no SGPA/CGPA
sections) on which every attempted extraction succeeds. -/
def dC4AllGood : Doc :=
  { labelValue := fun _ => some " 42 "
    labelCount := fun _ => 0
    subjectRows := some []
    semesterRows := some [] }

/-- C4 counterexample: `dC4` has no "Credit Marks:" label, and indeed no
credit keys appear — but the claim also asserts all other extractable
fields are still present, and here `Percentage:` is perfectly readable yet
absent from the record, because the earlier `Marks:` extraction raised and
took the rest of the scalar phase with it. -/
theorem c4_credit_probe_counterexample :
    dC4.labelCount "Credit Marks:" = 0 ∧
    get_value dC4 "Percentage:" = some "42" ∧
    List.lookup "percentage" (extractAll dC4).scalars = none ∧
    List.lookup "credit_marks" (extractAll dC4).scalars = none := by decide

/-- C4 (amended): when the "Credit Marks:" presence probe is zero the
record contains neither `credit_marks` nor `credit_percentage`, and neither
extraction is attempted (neither key is in the attempted-step list); and
provided every attempted scalar extraction succeeds, every attempted field
is present in the result.  (Without that proviso an earlier scalar failure
aborts the remaining scalar fields — the C1 correction.) -/
theorem c4_credit_probe_amended (d : Doc)
    (hcount : d.labelCount "Credit Marks:" = 0) :
    List.lookup "credit_marks" (extractAll d).scalars = none ∧
    List.lookup "credit_percentage" (extractAll d).scalars = none ∧
    "credit_marks" ∉ (scalarSteps d).map Prod.fst ∧
    "credit_percentage" ∉ (scalarSteps d).map Prod.fst ∧
    ((scalarPhase d).2 = false → ∀ p ∈ scalarSteps d,
      (List.lookup p.1 (extractAll d).scalars).isSome = true) := by
  obtain ⟨hnc1, hnc2⟩ := scalarSteps_no_credit d hcount
  refine ⟨?_, ?_, hnc1, hnc2, ?_⟩
  · apply lookup_eq_none_of_keys
    intro p hp hk
    obtain ⟨l, hl, _⟩ := runSteps_mem d (scalarSteps d) p hp
    have hm : (p.1, l).1 ∈ (scalarSteps d).map Prod.fst :=
      List.mem_map_of_mem Prod.fst hl
    exact hnc1 (hk ▸ hm)
  · apply lookup_eq_none_of_keys
    intro p hp hk
    obtain ⟨l, hl, _⟩ := runSteps_mem d (scalarSteps d) p hp
    have hm : (p.1, l).1 ∈ (scalarSteps d).map Prod.fst :=
      List.mem_map_of_mem Prod.fst hl
    exact hnc2 (hk ▸ hm)
  · intro hflag p hp
    have hall := runSteps_flag_false d (scalarSteps d) hflag
    have hrun := runSteps_all_some d (scalarSteps d) hall
    obtain ⟨v, hv⟩ := Option.isSome_iff_exists.mp (hall p hp)
    apply lookup_isSome_of_mem p.1 v
    show (p.1, v) ∈ (runSteps d (scalarSteps d)).1
    rw [hrun]
    exact List.mem_filterMap.mpr ⟨p, hp, by simp [stepOut, hv]⟩

/-- Witness for C4 (amended) at the concrete document `dC4AllGood`. -/
theorem c4_credit_probe_amended_witness :
    dC4AllGood.labelCount "Credit Marks:" = 0 ∧
    (scalarPhase dC4AllGood).2 = false ∧
    (List.lookup "credit_marks" (extractAll dC4AllGood).scalars = none ∧
     List.lookup "credit_percentage" (extractAll dC4AllGood).scalars = none ∧
     "credit_marks" ∉ (scalarSteps dC4AllGood).map Prod.fst ∧
     "credit_percentage" ∉ (scalarSteps dC4AllGood).map Prod.fst ∧
     ((scalarPhase dC4AllGood).2 = false → ∀ p ∈ scalarSteps dC4AllGood,
       (List.lookup p.1 (extractAll dC4AllGood).scalars).isSome = true)) :=
  ⟨rfl, by decide, c4_credit_probe_amended dC4AllGood rfl⟩
